import Mathlib

/-!
Verification of the DzikiBoT-Dadi motion core.

Shallow embedding of:
  * `src/Core/Src/tank_drive.c` — reverse-direction neutral gate, rate-limited
    ramp, EMA smoothing, per-side compensation, ESC window mapping, and the
    high-level maneuver API;
  * the soft-timer scheduler `App_TaskDue` / `App_TaskPrime` from
    `src/Core/Nowy folder/Src/app.c` (the anti-drift snapshot of the
    scheduler; the older snapshots in `src/Core/Src/app.c` and
    `src/unnamed/part_014` instead reset the marker to `now`).

Machine integers are modelled as `Int`/`Nat` with explicit reductions:
`wrap8` models a C cast to `int8_t`, `u32`/`usub32` model `uint32_t`
arithmetic.  The C `float` fields are modelled as exact rationals; every
claim proved about them either exercises a branch that performs no float
arithmetic or is an existence statement at concrete inputs whose
conclusion is robust to rounding.
-/

/-- Two-complement wrap of an integer into the `int8_t` range `[-128, 127]`,
modelling a C cast `(int8_t)` at the points where the source narrows an
`int` to `int8_t`. -/
def wrap8 (v : Int) : Int := (v + 128) % 256 - 128

/-- `clamp_i8` from `tank_drive.c` (lines 54-63): clamp below, then above,
then cast back to `int8_t`. -/
def clamp_i8 (v lo hi : Int) : Int :=
  let v1 := if v < lo then lo else v
  let v2 := if v1 > hi then hi else v1
  wrap8 v2

/-- `clampf` from `tank_drive.c` (lines 65-74), over exact rationals in place
of `float`. -/
def clampf (v lo hi : ℚ) : ℚ :=
  let v1 := if v < lo then lo else v
  if v1 > hi then hi else v1

/-- The C `(int8_t)` conversion of a `float` truncates toward zero; in the
source it is only applied to values pre-clamped to `[-100, 100]`, so the
conversion is defined. -/
def truncQ (q : ℚ) : Int := if q < 0 then ⌈q⌉ else ⌊q⌋

/-- 2^32, the `uint32_t` modulus. -/
def U32 : Nat := 4294967296

/-- Reduction into the `uint32_t` range. -/
def u32 (n : Nat) : Nat := n % U32

/-- Wraparound-safe `uint32_t` subtraction `a - b`. -/
def usub32 (a b : Nat) : Nat := (u32 a + U32 - u32 b) % U32

/-- The source tests dwell expiry as `(int32_t)(now - *gate_until) >= 0`
(`tank_drive.c` line 134): the reinterpreted difference is nonnegative
exactly when the wrapped `uint32_t` difference is below 2^31. -/
def tickReached (now gate_until : Nat) : Bool :=
  decide (usub32 now gate_until < 2147483648)

/-- The `[MOTORS]` configuration block (`ConfigMotors_t` in `config.h`) as
read by `tank_drive.c`.  `smooth_alpha` and the side scales are `float` in
the source, modelled as exact rationals; the integer fields are unsigned
machine integers, modelled as `Nat`. -/
structure ConfigMotors where
  tick_ms : Nat
  ramp_step_pct : Nat
  smooth_alpha : ℚ
  left_scale : ℚ
  right_scale : ℚ
  esc_start_pct : Nat
  esc_max_pct : Nat
  neutral_dwell_ms : Nat
  reverse_threshold_pct : Nat
deriving DecidableEq

/-- Per-wheel neutral-gate state: the pair `gate_X_active` / `gate_X_until`
from `tank_drive.c` lines 48-49. -/
structure Gate where
  active : Bool
  gate_until : Nat
deriving DecidableEq

/-- The qualifying-reversal test of `tank_drive.c` lines 142-143: the ramped
value and the target sit strictly on opposite sides of the threshold band.
The threshold is `(int8_t)C->reverse_threshold_pct` (line 131). -/
def qualifying_reversal (cfg : ConfigMotors) (cur tgt : Int) : Bool :=
  let thr := wrap8 (cfg.reverse_threshold_pct : Int)
  decide ((cur > thr ∧ tgt < -thr) ∨ (cur < -thr ∧ tgt > thr))

/-- The tail of `apply_neutral_gate_one` after the active-gate check has
fallen through (`tank_drive.c` lines 141-150): on a qualifying reversal arm
the gate until `now + dwell` and force neutral, otherwise pass the target
through. -/
def gate_reversal_check (cfg : ConfigMotors) (tgt : Int) (g : Gate)
    (now : Nat) (rev : Bool) : Int × Gate :=
  if rev then
    (0, ⟨true, u32 (now + cfg.neutral_dwell_ms)⟩)
  else
    (tgt, g)

/-- `apply_neutral_gate_one` from `tank_drive.c` lines 126-151: while the
gate is active hold hard neutral until the dwell expires; on expiry clear
`active` and fall through to the reversal check; arm the gate on a
qualifying sign reversal. -/
def apply_neutral_gate_one (cfg : ConfigMotors) (cur tgt : Int) (g : Gate)
    (now : Nat) : Int × Gate :=
  if g.active then
    if tickReached now g.gate_until then
      gate_reversal_check cfg tgt ⟨false, g.gate_until⟩ now
        (qualifying_reversal cfg cur tgt)
    else
      (0, g)
  else
    gate_reversal_check cfg tgt g now (qualifying_reversal cfg cur tgt)

/-- `ramp_once` from `tank_drive.c` lines 77-86: one step of `cur` toward
`tgt`, the step bounded by `step`; the result is cast back to `int8_t`. -/
def ramp_once (cur tgt : Int) (step : Nat) : Int :=
  let d := tgt - cur
  let d2 := if d > (step : Int) then (step : Int)
            else if d < -(step : Int) then -(step : Int) else d
  wrap8 (cur + d2)

/-- `ema_step` from `tank_drive.c` lines 89-92. -/
def ema_step (prev inp alpha : ℚ) : ℚ := (1 - alpha) * prev + alpha * inp

/-- The level computation of `map_logic_to_esc_window` (`tank_drive.c` lines
110-117): `start + (max - start) * mag / 100`, clamped into `[start, max]`.
In the source the division is C `int` division; every use in the theorems
below has `start <= max`, where the dividend is nonnegative and C truncation
agrees with the `Int` division used here. -/
def esc_level (cfg : ConfigMotors) (mag : Int) : Int :=
  let start : Int := cfg.esc_start_pct
  let mx : Int := cfg.esc_max_pct
  let esc := start + (mx - start) * mag / 100
  let esc2 := if esc < start then start else esc
  if esc2 > mx then mx else esc2

/-- `map_logic_to_esc_window` from `tank_drive.c` lines 98-121: exact 0 stays
neutral; a nonzero command keeps its sign and its magnitude is remapped to
the clamped window level; the signed result is cast back to `int8_t`. -/
def map_logic_to_esc_window (cfg : ConfigMotors) (x : Int) : Int :=
  if x = 0 then 0
  else
    let sign : Int := if x < 0 then -1 else 1
    let mag : Int := if x < 0 then -x else x
    wrap8 (sign * esc_level cfg mag)

/-- The mutable module state of `tank_drive.c`: `TD_State_t` (lines 35-39)
together with the two gate variable pairs (lines 48-49). -/
structure TankState where
  tgt_L : Int
  tgt_R : Int
  cur_L : Int
  cur_R : Int
  flt_L : ℚ
  flt_R : ℚ
  gL : Gate
  gR : Gate
deriving DecidableEq

/-- `Tank_Init` from `tank_drive.c` lines 156-167: zero the command state and
both gates (the timer handle and the neutral-all actuator call are outside
the model). -/
def Tank_Init : TankState :=
  ⟨0, 0, 0, 0, 0, 0, ⟨false, 0⟩, ⟨false, 0⟩⟩

/-- `Tank_Update` from `tank_drive.c` lines 178-224: gate, ramp (or forced
zero while gated), EMA (bypassed when `smooth_alpha <= 0`), per-side
compensation clamped to `[-100, 100]`, window mapping.  Returns the new
state together with the two raw percentages written to the ESC channels
(left, right). -/
def Tank_Update (cfg : ConfigMotors) (st : TankState) (now : Nat) :
    TankState × Int × Int :=
  let eL := apply_neutral_gate_one cfg st.cur_L st.tgt_L st.gL now
  let eR := apply_neutral_gate_one cfg st.cur_R st.tgt_R st.gR now
  let curL := if eL.2.active then 0 else ramp_once st.cur_L eL.1 cfg.ramp_step_pct
  let curR := if eR.2.active then 0 else ramp_once st.cur_R eR.1 cfg.ramp_step_pct
  let inL : ℚ := (curL : ℚ)
  let inR : ℚ := (curR : ℚ)
  let fltL := if cfg.smooth_alpha > 0 then ema_step st.flt_L inL cfg.smooth_alpha else inL
  let fltR := if cfg.smooth_alpha > 0 then ema_step st.flt_R inR cfg.smooth_alpha else inR
  let compL := clampf (fltL * cfg.left_scale) (-100) 100
  let compR := clampf (fltR * cfg.right_scale) (-100) 100
  let outL := map_logic_to_esc_window cfg (truncQ compL)
  let outR := map_logic_to_esc_window cfg (truncQ compR)
  (⟨st.tgt_L, st.tgt_R, curL, curR, fltL, fltR, eL.2, eR.2⟩, outL, outR)

/-- `Tank_Stop` from `tank_drive.c` lines 227-231. -/
def Tank_Stop (st : TankState) : TankState :=
  { st with tgt_L := 0, tgt_R := 0 }

/-- `Tank_Forward` from `tank_drive.c` lines 233-238. -/
def Tank_Forward (st : TankState) (pct : Int) : TankState :=
  let p := clamp_i8 pct 0 100
  { st with tgt_L := p, tgt_R := p }

/-- `Tank_Backward` from `tank_drive.c` lines 240-245. -/
def Tank_Backward (st : TankState) (pct : Int) : TankState :=
  let p := clamp_i8 pct 0 100
  { st with tgt_L := -p, tgt_R := -p }

/-- `arc_pair` from `tank_drive.c` lines 249-257: inner wheel at half the
base value, outer at the base, both floored at 0.  The call sites clamp the
base to `[0, 100]` first, where C and `Int` division agree. -/
def arc_pair (base : Int) : Int × Int :=
  let inn := base / 2
  let out := base
  let inn2 := if inn < 0 then 0 else inn
  let out2 := if out < 0 then 0 else out
  (inn2, out2)

/-- `Tank_TurnLeft` from `tank_drive.c` lines 259-266. -/
def Tank_TurnLeft (st : TankState) (pct : Int) : TankState :=
  let p := clamp_i8 pct 0 100
  let io := arc_pair p
  { st with tgt_L := io.1, tgt_R := io.2 }

/-- `Tank_TurnRight` from `tank_drive.c` lines 268-275. -/
def Tank_TurnRight (st : TankState) (pct : Int) : TankState :=
  let p := clamp_i8 pct 0 100
  let io := arc_pair p
  { st with tgt_L := io.2, tgt_R := io.1 }

/-- `Tank_RotateLeft` from `tank_drive.c` lines 277-282. -/
def Tank_RotateLeft (st : TankState) (pct : Int) : TankState :=
  let p := clamp_i8 pct 0 100
  { st with tgt_L := -p, tgt_R := p }

/-- `Tank_RotateRight` from `tank_drive.c` lines 284-289. -/
def Tank_RotateRight (st : TankState) (pct : Int) : TankState :=
  let p := clamp_i8 pct 0 100
  { st with tgt_L := p, tgt_R := -p }

/-- `Tank_SetTarget` from `tank_drive.c` lines 291-295. -/
def Tank_SetTarget (st : TankState) (left_pct right_pct : Int) : TankState :=
  { st with tgt_L := clamp_i8 left_pct (-100) 100,
            tgt_R := clamp_i8 right_pct (-100) 100 }

/-- `App_TaskDue` from `src/Core/Nowy folder/Src/app.c` lines 71-80 (the
anti-drift scheduler): period 0 is always due and resets the marker to
`now`; otherwise the task is due when the wraparound-safe elapsed time
reaches the period, and the marker advances by the largest elapsed multiple
of the period.  Returns `(due, new last_run)`. -/
def App_TaskDue (now last period : Nat) : Bool × Nat :=
  if period = 0 then (true, u32 now)
  else
    let elapsed := usub32 now last
    if elapsed ≥ period then (true, u32 (last + period * (elapsed / period)))
    else (false, last)

/-- `App_TaskPrime` from `src/Core/Nowy folder/Src/app.c` lines 81-84:
initialize a task marker to `now - period` (wraparound-safe), or to `now`
when the period is 0, so the first poll fires immediately. -/
def App_TaskPrime (now period : Nat) : Nat :=
  if period = 0 then u32 now else usub32 now period

/-- The default `[MOTORS]` values from `src/Core/Src/config.c` lines 10-18
(`smooth_alpha = 0.20f` modelled as `1/5`). -/
def cfg_default : ConfigMotors :=
  ⟨20, 4, 1/5, 1, 1, 30, 60, 500, 5⟩

/-- The `[MOTORS]` values with smoothing disabled (`smooth_alpha = 0`),
the configuration of spec scenario C. -/
def cfg_bypass : ConfigMotors :=
  ⟨20, 4, 0, 1, 1, 30, 60, 500, 5⟩

/-- State after `Tank_Init` followed by `Tank_SetTarget(100, 100)` — the
start of the C4 reachability trace. -/
def c4_s0 : TankState := Tank_SetTarget Tank_Init 100 100

/-- C4 trace, tick 1 (default tuning, clock 20 ms). -/
def c4_s1 : TankState := (Tank_Update cfg_default c4_s0 20).1

/-- C4 trace, tick 2 (clock 40 ms). -/
def c4_s2 : TankState := (Tank_Update cfg_default c4_s1 40).1

/-- C4 trace: `Tank_SetTarget(-100, -100)` — a full direction reversal. -/
def c4_s2b : TankState := Tank_SetTarget c4_s2 (-100) (-100)

/-- C4 trace, tick 3 (clock 60 ms): the reversal arms both gates. -/
def c4_s3 : TankState := (Tank_Update cfg_default c4_s2b 60).1

/-- C4 trace, tick 4 (clock 80 ms, mid-dwell): resulting state and the two
actuator writes. -/
def c4_r4 : TankState × Int × Int := Tank_Update cfg_default c4_s3 80

/-- State after `Tank_Init` followed by `Tank_SetTarget(100, 100)` — the
setup of spec scenario A (claim C8). -/
def c8_s0 : TankState := Tank_SetTarget Tank_Init 100 100

/-- One update of scenario A under a given configuration: resulting state
and the two actuator writes. -/
def c8_res (cfg : ConfigMotors) : TankState × Int × Int :=
  Tank_Update cfg c8_s0 20

/-! ### Helper lemmas -/

/-- wrap8 is the identity on values already in the `int8_t` range. -/
theorem wrap8_eq (v : Int) (h1 : -128 ≤ v) (h2 : v ≤ 127) : wrap8 v = v := by
  unfold wrap8
  omega

/-- The clamped window level always lands in `[start, max]` when the window
is ordered. -/
theorem esc_level_mem (cfg : ConfigMotors) (mag : Int)
    (hs : cfg.esc_start_pct ≤ cfg.esc_max_pct) :
    (cfg.esc_start_pct : Int) ≤ esc_level cfg mag ∧
    esc_level cfg mag ≤ (cfg.esc_max_pct : Int) := by
  have hs' : (cfg.esc_start_pct : Int) ≤ (cfg.esc_max_pct : Int) := by
    exact_mod_cast hs
  simp only [esc_level]
  generalize ((cfg.esc_max_pct : Int) - (cfg.esc_start_pct : Int)) *
    mag / 100 = d
  split_ifs <;> omega

/-- The clamped window level is monotone in the magnitude. -/
theorem esc_level_mono (cfg : ConfigMotors) (m1 m2 : Int)
    (hs : cfg.esc_start_pct ≤ cfg.esc_max_pct) (h12 : m1 ≤ m2) :
    esc_level cfg m1 ≤ esc_level cfg m2 := by
  have hs' : (cfg.esc_start_pct : Int) ≤ (cfg.esc_max_pct : Int) := by
    exact_mod_cast hs
  simp only [esc_level]
  have hnum : ((cfg.esc_max_pct : Int) - (cfg.esc_start_pct : Int)) * m1 ≤
      ((cfg.esc_max_pct : Int) - (cfg.esc_start_pct : Int)) * m2 :=
    mul_le_mul_of_nonneg_left h12 (by omega)
  have hdiv : ((cfg.esc_max_pct : Int) - (cfg.esc_start_pct : Int)) * m1 / 100 ≤
      ((cfg.esc_max_pct : Int) - (cfg.esc_start_pct : Int)) * m2 / 100 :=
    Int.ediv_le_ediv (by norm_num) hnum
  generalize hd1 : ((cfg.esc_max_pct : Int) - (cfg.esc_start_pct : Int)) *
    m1 / 100 = d1 at hdiv
  generalize hd2 : ((cfg.esc_max_pct : Int) - (cfg.esc_start_pct : Int)) *
    m2 / 100 = d2 at hdiv
  split_ifs <;> omega

/-- On a strictly positive input, the window map is the clamped level. -/
theorem map_eq_pos (cfg : ConfigMotors) (x : Int)
    (hs : cfg.esc_start_pct ≤ cfg.esc_max_pct) (hm : cfg.esc_max_pct ≤ 127)
    (hx : 0 < x) :
    map_logic_to_esc_window cfg x = esc_level cfg x := by
  have hmem := esc_level_mem cfg x hs
  have hm' : (cfg.esc_max_pct : Int) ≤ 127 := by exact_mod_cast hm
  have h0 : (0 : Int) ≤ (cfg.esc_start_pct : Int) := Int.natCast_nonneg _
  simp only [map_logic_to_esc_window, if_neg hx.ne', if_neg (not_lt.mpr hx.le),
    one_mul]
  exact wrap8_eq _ (by omega) (by omega)

/-- On a strictly negative input, the window map is minus the clamped level
of the magnitude. -/
theorem map_eq_neg (cfg : ConfigMotors) (x : Int)
    (hs : cfg.esc_start_pct ≤ cfg.esc_max_pct) (hm : cfg.esc_max_pct ≤ 127)
    (hx : x < 0) :
    map_logic_to_esc_window cfg x = -esc_level cfg (-x) := by
  have hmem := esc_level_mem cfg (-x) hs
  have hm' : (cfg.esc_max_pct : Int) ≤ 127 := by exact_mod_cast hm
  have h0 : (0 : Int) ≤ (cfg.esc_start_pct : Int) := Int.natCast_nonneg _
  simp only [map_logic_to_esc_window, if_neg hx.ne, if_pos hx, neg_one_mul]
  exact wrap8_eq _ (by omega) (by omega)

/-- The magnitude of the window map of a nonzero input is the clamped level
of the input magnitude. -/
theorem map_abs_eq (cfg : ConfigMotors) (x : Int)
    (hs : cfg.esc_start_pct ≤ cfg.esc_max_pct) (hm : cfg.esc_max_pct ≤ 127)
    (hx : x ≠ 0) :
    |map_logic_to_esc_window cfg x| = esc_level cfg |x| := by
  have h0 : (0 : Int) ≤ (cfg.esc_start_pct : Int) := Int.natCast_nonneg _
  rcases lt_or_gt_of_ne hx with hneg | hpos
  · rw [map_eq_neg cfg x hs hm hneg, abs_neg, abs_of_neg hneg,
      abs_of_nonneg (by have := esc_level_mem cfg (-x) hs; omega)]
  · rw [map_eq_pos cfg x hs hm hpos, abs_of_pos hpos,
      abs_of_nonneg (by have := esc_level_mem cfg x hs; omega)]

/-! ### C6 -/

/-- C6: the window mapping is range-correct: input 0 maps to exactly 0, and
for every nonzero input in `[-100, 100]`, under an ordered window whose
upper bound stays in the `int8_t` percent domain, the output magnitude lies
in `[esc_start_pct, esc_max_pct]`. -/
theorem C6_map_window_range (cfg : ConfigMotors) (x : Int)
    (hs : cfg.esc_start_pct ≤ cfg.esc_max_pct) (hm : cfg.esc_max_pct ≤ 127) :
    map_logic_to_esc_window cfg 0 = 0 ∧
    (x ≠ 0 → -100 ≤ x → x ≤ 100 →
      (cfg.esc_start_pct : Int) ≤ |map_logic_to_esc_window cfg x| ∧
      |map_logic_to_esc_window cfg x| ≤ (cfg.esc_max_pct : Int)) := by
  refine ⟨rfl, fun hx _ _ => ?_⟩
  rw [map_abs_eq cfg x hs hm hx]
  exact esc_level_mem cfg |x| hs

/-- Witness for C6 at the repository default window `[30, 60]` and input
`x = 100`. -/
theorem C6_map_window_range_witness :
    map_logic_to_esc_window cfg_default 0 = 0 ∧
    (cfg_default.esc_start_pct : Int) ≤ |map_logic_to_esc_window cfg_default 100| ∧
    |map_logic_to_esc_window cfg_default 100| ≤ (cfg_default.esc_max_pct : Int) := by
  have h := C6_map_window_range cfg_default 100 (by decide) (by decide)
  exact ⟨h.1, h.2 (by decide) (by decide) (by decide)⟩

/-! ### C7 -/

/-- C7: the window mapping is odd-symmetric on `[-100, 100]` and monotone in
the input magnitude. -/
theorem C7_map_window_odd_monotone (cfg : ConfigMotors) (x x1 x2 : Int)
    (hs : cfg.esc_start_pct ≤ cfg.esc_max_pct) (hm : cfg.esc_max_pct ≤ 127) :
    (-100 ≤ x → x ≤ 100 →
      map_logic_to_esc_window cfg (-x) = -map_logic_to_esc_window cfg x) ∧
    (-100 ≤ x1 → x1 ≤ 100 → -100 ≤ x2 → x2 ≤ 100 → |x1| ≤ |x2| →
      |map_logic_to_esc_window cfg x1| ≤ |map_logic_to_esc_window cfg x2|) := by
  constructor
  · intro _ _
    rcases lt_trichotomy x 0 with hx | hx | hx
    · rw [map_eq_neg cfg x hs hm hx, map_eq_pos cfg (-x) hs hm (by omega),
        neg_neg]
    · subst hx
      simp [map_logic_to_esc_window]
    · rw [map_eq_pos cfg x hs hm hx, map_eq_neg cfg (-x) hs hm (by omega),
        neg_neg]
  · intro _ _ _ _ h12
    by_cases h1 : x1 = 0
    · subst h1
      simp only [map_logic_to_esc_window, if_pos rfl, abs_zero]
      exact abs_nonneg _
    · have h2 : x2 ≠ 0 := by
        intro h
        subst h
        simp only [abs_zero] at h12
        exact h1 (abs_nonpos_iff.mp h12)
      rw [map_abs_eq cfg x1 hs hm h1, map_abs_eq cfg x2 hs hm h2]
      exact esc_level_mono cfg _ _ hs h12

/-- Witness for C7 at the default window, `x = 70`, `x1 = -40`, `x2 = 90`. -/
theorem C7_map_window_odd_monotone_witness :
    map_logic_to_esc_window cfg_default (-70) =
      -map_logic_to_esc_window cfg_default 70 ∧
    |map_logic_to_esc_window cfg_default (-40)| ≤
      |map_logic_to_esc_window cfg_default 90| := by
  have h := C7_map_window_odd_monotone cfg_default 70 (-40) 90
    (by decide) (by decide)
  exact ⟨h.1 (by decide) (by decide),
    h.2 (by decide) (by decide) (by decide) (by decide) (by decide)⟩

/-! ### C1 -/

/-- Folding gate evaluations over any sequence of times that all precede the
release time leaves an active gate completely unchanged. -/
theorem gate_foldl_const (cfg : ConfigMotors) (cur tgt : Int) (g : Gate)
    (ha : g.active = true) :
    ∀ ts : List Nat, (∀ t ∈ ts, tickReached t g.gate_until = false) →
      List.foldl (fun gg t => (apply_neutral_gate_one cfg cur tgt gg t).2)
        g ts = g := by
  intro ts
  induction ts with
  | nil => intro _; rfl
  | cons a as ih =>
    intro hts
    simp only [List.foldl_cons]
    have h1 : (apply_neutral_gate_one cfg cur tgt g a).2 = g := by
      simp [apply_neutral_gate_one, ha, hts a (List.mem_cons_self a as)]
    rw [h1]
    exact ih fun t ht => hts t (List.mem_cons_of_mem a ht)

/-- C1: `apply_neutral_gate_one` implements exactly the specified algorithm:
an active gate before its release time returns 0 with the state (release
time included) unchanged; an active gate at or past release clears `active`
and falls through to the reversal check; a qualifying reversal arms the
gate until `now + dwell` and returns 0; otherwise the target passes through
unchanged.  Repeated evaluations while active and before release always
return 0 and never re-extend the release time. -/
theorem C1_apply_neutral_gate_spec (cfg : ConfigMotors) (cur tgt : Int)
    (g : Gate) (now : Nat) :
    (g.active = true → tickReached now g.gate_until = false →
      apply_neutral_gate_one cfg cur tgt g now = (0, g)) ∧
    (g.active = true → tickReached now g.gate_until = true →
      (qualifying_reversal cfg cur tgt = true →
        apply_neutral_gate_one cfg cur tgt g now =
          (0, ⟨true, u32 (now + cfg.neutral_dwell_ms)⟩)) ∧
      (qualifying_reversal cfg cur tgt = false →
        apply_neutral_gate_one cfg cur tgt g now =
          (tgt, ⟨false, g.gate_until⟩))) ∧
    (g.active = false →
      (qualifying_reversal cfg cur tgt = true →
        apply_neutral_gate_one cfg cur tgt g now =
          (0, ⟨true, u32 (now + cfg.neutral_dwell_ms)⟩)) ∧
      (qualifying_reversal cfg cur tgt = false →
        apply_neutral_gate_one cfg cur tgt g now = (tgt, g))) ∧
    (∀ ts : List Nat, g.active = true →
      (∀ t ∈ ts, tickReached t g.gate_until = false) →
      List.foldl (fun gg t => (apply_neutral_gate_one cfg cur tgt gg t).2)
        g ts = g ∧
      ∀ t ∈ ts, (apply_neutral_gate_one cfg cur tgt g t).1 = 0) := by
  refine ⟨?_, ?_, ?_, ?_⟩
  · intro ha hr
    simp [apply_neutral_gate_one, ha, hr]
  · intro ha hr
    constructor <;> intro hq <;>
      simp [apply_neutral_gate_one, gate_reversal_check, ha, hr, hq]
  · intro ha
    constructor <;> intro hq <;>
      simp [apply_neutral_gate_one, gate_reversal_check, ha, hq]
  · intro ts ha hts
    refine ⟨gate_foldl_const cfg cur tgt g ha ts hts, fun t ht => ?_⟩
    simp [apply_neutral_gate_one, ha, hts t ht]

/-- Witness for C1: at default tuning, a gate armed until tick 600 evaluated
at tick 100 holds neutral and keeps its release time. -/
theorem C1_apply_neutral_gate_spec_witness :
    (⟨true, 600⟩ : Gate).active = true ∧
    tickReached 100 600 = false ∧
    apply_neutral_gate_one cfg_default 50 (-50) ⟨true, 600⟩ 100 =
      (0, ⟨true, 600⟩) :=
  ⟨rfl, by decide,
    (C1_apply_neutral_gate_spec cfg_default 50 (-50) ⟨true, 600⟩ 100).1
      rfl (by decide)⟩

/-! ### C9 -/

/-- C9: when the smoothing factor is nonpositive the EMA stage is bypassed:
after any update tick the filtered value equals the ramped current value
exactly, on both channels. -/
theorem C9_alpha_nonpos_bypass (cfg : ConfigMotors) (st : TankState)
    (now : Nat) (h : cfg.smooth_alpha ≤ 0) :
    (Tank_Update cfg st now).1.flt_L = (((Tank_Update cfg st now).1.cur_L : ℚ)) ∧
    (Tank_Update cfg st now).1.flt_R = (((Tank_Update cfg st now).1.cur_R : ℚ)) := by
  have hn : ¬ (cfg.smooth_alpha > 0) := not_lt.mpr h
  simp [Tank_Update, hn]

/-- Witness for C9 with `smooth_alpha = 0` from the freshly initialized
state. -/
theorem C9_alpha_nonpos_bypass_witness :
    cfg_bypass.smooth_alpha ≤ 0 ∧
    (Tank_Update cfg_bypass Tank_Init 0).1.flt_L =
      (((Tank_Update cfg_bypass Tank_Init 0).1.cur_L : ℚ)) ∧
    (Tank_Update cfg_bypass Tank_Init 0).1.flt_R =
      (((Tank_Update cfg_bypass Tank_Init 0).1.cur_R : ℚ)) := by
  have h : cfg_bypass.smooth_alpha ≤ 0 := le_refl _
  have hc := C9_alpha_nonpos_bypass cfg_bypass Tank_Init 0 h
  exact ⟨h, hc.1, hc.2⟩

/-! ### C10 -/

/-- C10: `Tank_Update` never modifies the target fields, and the target
fields are written (to their clamped commanded values) exactly by
`Tank_SetTarget` and the maneuver calls. -/
theorem C10_update_preserves_targets (cfg : ConfigMotors) (st : TankState)
    (now : Nat) (l r p : Int) :
    (Tank_Update cfg st now).1.tgt_L = st.tgt_L ∧
    (Tank_Update cfg st now).1.tgt_R = st.tgt_R ∧
    (Tank_Stop st).tgt_L = 0 ∧
    (Tank_Stop st).tgt_R = 0 ∧
    (Tank_SetTarget st l r).tgt_L = clamp_i8 l (-100) 100 ∧
    (Tank_SetTarget st l r).tgt_R = clamp_i8 r (-100) 100 ∧
    (Tank_Forward st p).tgt_L = clamp_i8 p 0 100 ∧
    (Tank_Forward st p).tgt_R = clamp_i8 p 0 100 ∧
    (Tank_Backward st p).tgt_L = -clamp_i8 p 0 100 ∧
    (Tank_Backward st p).tgt_R = -clamp_i8 p 0 100 ∧
    (Tank_RotateLeft st p).tgt_L = -clamp_i8 p 0 100 ∧
    (Tank_RotateLeft st p).tgt_R = clamp_i8 p 0 100 ∧
    (Tank_RotateRight st p).tgt_L = clamp_i8 p 0 100 ∧
    (Tank_RotateRight st p).tgt_R = -clamp_i8 p 0 100 ∧
    (Tank_TurnLeft st p).tgt_L = (arc_pair (clamp_i8 p 0 100)).1 ∧
    (Tank_TurnLeft st p).tgt_R = (arc_pair (clamp_i8 p 0 100)).2 ∧
    (Tank_TurnRight st p).tgt_L = (arc_pair (clamp_i8 p 0 100)).2 ∧
    (Tank_TurnRight st p).tgt_R = (arc_pair (clamp_i8 p 0 100)).1 := by
  exact ⟨rfl, rfl, rfl, rfl, rfl, rfl, rfl, rfl, rfl, rfl, rfl, rfl, rfl,
    rfl, rfl, rfl, rfl, rfl⟩

/-! ### C2 -/

/-- C2: when a periodic task is found due, `App_TaskDue` advances `last_run`
by the largest exact multiple of the period that has elapsed (`k` full
periods leave a remainder below one period), reports due exactly once (an
immediate re-poll at the same time is not due), and never advances by the
raw elapsed time. -/
theorem C2_taskdue_phase_recovery (now last period : Nat)
    (hp : 0 < period) (hnow : now < U32) (hlast : last < U32)
    (hdue : period ≤ usub32 now last) :
    (App_TaskDue now last period).1 = true ∧
    (App_TaskDue now last period).2 =
      u32 (last + period * (usub32 now last / period)) ∧
    1 ≤ usub32 now last / period ∧
    usub32 now (App_TaskDue now last period).2 = usub32 now last % period ∧
    (App_TaskDue now (App_TaskDue now last period).2 period).1 = false := by
  have hne : period ≠ 0 := hp.ne'
  have h1 : App_TaskDue now last period =
      (true, u32 (last + period * (usub32 now last / period))) := by
    unfold App_TaskDue
    rw [if_neg hne, if_pos hdue]
  have hk1 : 1 ≤ usub32 now last / period := (Nat.one_le_div_iff hp).mpr hdue
  have h4 : usub32 now (u32 (last + period * (usub32 now last / period))) =
      usub32 now last % period := by
    have hme : usub32 now last % period ≤ usub32 now last := Nat.mod_le _ _
    have hmlt : usub32 now last % period < period := Nat.mod_lt _ hp
    have helt : usub32 now last < U32 := by
      unfold usub32
      exact Nat.mod_lt _ (by norm_num [U32])
    have hdm : period * (usub32 now last / period) +
        usub32 now last % period = usub32 now last := Nat.div_add_mod _ _
    have hrw : last + period * (usub32 now last / period) =
        last + (usub32 now last - usub32 now last % period) := by omega
    rw [hrw]
    generalize hgm : usub32 now last % period = m at hme hmlt ⊢
    unfold usub32 u32 U32 at *
    omega
  have h2 : (App_TaskDue now last period).2 =
      u32 (last + period * (usub32 now last / period)) := by rw [h1]
  refine ⟨by rw [h1], h2, hk1, by rw [h2]; exact h4, ?_⟩
  have hlt5 : usub32 now (u32 (last + period * (usub32 now last / period)))
      < period := by
    rw [h4]
    exact Nat.mod_lt _ hp
  rw [h2]
  simp only [App_TaskDue, if_neg hne]
  rw [if_neg (not_le.mpr hlt5)]

/-- Witness for C2: period 10, marker 0, polled at 25: due fires once,
the marker jumps to 20 (two full periods), and an immediate re-poll is not
due. -/
theorem C2_taskdue_phase_recovery_witness :
    (App_TaskDue 25 0 10).1 = true ∧
    (App_TaskDue 25 0 10).2 = u32 (0 + 10 * (usub32 25 0 / 10)) ∧
    1 ≤ usub32 25 0 / 10 ∧
    usub32 25 (App_TaskDue 25 0 10).2 = usub32 25 0 % 10 ∧
    (App_TaskDue 25 (App_TaskDue 25 0 10).2 10).1 = false :=
  C2_taskdue_phase_recovery 25 0 10 (by decide) (by norm_num [U32])
    (by norm_num [U32]) (by decide)

/-! ### C5 -/

/-- C5: `App_TaskPrime` initializes the marker to `now - period`
(wraparound-safe), or to `now` when the period is 0, and in either case the
very first due-check after priming fires immediately. -/
theorem C5_taskprime_fires_immediately (now period : Nat)
    (hper : period < U32) :
    (period = 0 → App_TaskPrime now period = u32 now) ∧
    (0 < period → App_TaskPrime now period = usub32 now period) ∧
    (App_TaskDue now (App_TaskPrime now period) period).1 = true := by
  refine ⟨fun h => by simp [App_TaskPrime, h],
    fun h => by simp [App_TaskPrime, h.ne'], ?_⟩
  by_cases h0 : period = 0
  · simp [App_TaskDue, App_TaskPrime, h0]
  · have helapsed : usub32 now (App_TaskPrime now period) = period := by
      simp only [App_TaskPrime, if_neg h0]
      unfold usub32 u32 U32 at *
      omega
    simp only [App_TaskDue, if_neg h0]
    rw [helapsed, if_pos (le_refl period)]

/-- Witness for C5 at `now = 1000`, `period = 20`. -/
theorem C5_taskprime_fires_immediately_witness :
    App_TaskPrime 1000 20 = usub32 1000 20 ∧
    (App_TaskDue 1000 (App_TaskPrime 1000 20) 20).1 = true := by
  have h := C5_taskprime_fires_immediately 1000 20 (by norm_num [U32])
  exact ⟨h.2.1 (by norm_num), h.2.2⟩

/-! ### C3 -/

/-- A single ramp step moves by at most `step` and never overshoots the
target, for values in the `int8_t` range. -/
theorem ramp_once_step_bound (cur tgt : Int) (step : Nat)
    (hc1 : -128 ≤ cur) (hc2 : cur ≤ 127)
    (ht1 : -128 ≤ tgt) (ht2 : tgt ≤ 127) :
    |ramp_once cur tgt step - cur| ≤ (step : Int) ∧
    (cur ≤ tgt → cur ≤ ramp_once cur tgt step ∧ ramp_once cur tgt step ≤ tgt) ∧
    (tgt ≤ cur → tgt ≤ ramp_once cur tgt step ∧ ramp_once cur tgt step ≤ cur) := by
  simp only [ramp_once, wrap8]
  split_ifs <;>
    exact ⟨abs_le.mpr ⟨by omega, by omega⟩,
      fun h => ⟨by omega, by omega⟩, fun h => ⟨by omega, by omega⟩⟩

/-- The gate evaluation returns either a forced 0 or the unchanged target. -/
theorem gate_out_cases (cfg : ConfigMotors) (cur tgt : Int) (g : Gate)
    (now : Nat) :
    (apply_neutral_gate_one cfg cur tgt g now).1 = 0 ∨
    (apply_neutral_gate_one cfg cur tgt g now).1 = tgt := by
  unfold apply_neutral_gate_one gate_reversal_check
  split_ifs <;> simp

/-- C3: on every update tick, each channel either has its gate active after
gate evaluation (and `current` drops to exactly 0), or `current` changes by
at most `ramp_step_pct` and only moves toward the gated target. -/
theorem C3_ramp_invariant (cfg : ConfigMotors) (st : TankState) (now : Nat)
    (hcl1 : -128 ≤ st.cur_L) (hcl2 : st.cur_L ≤ 127)
    (htl1 : -128 ≤ st.tgt_L) (htl2 : st.tgt_L ≤ 127)
    (hcr1 : -128 ≤ st.cur_R) (hcr2 : st.cur_R ≤ 127)
    (htr1 : -128 ≤ st.tgt_R) (htr2 : st.tgt_R ≤ 127) :
    ((Tank_Update cfg st now).1.gL.active = true →
      (Tank_Update cfg st now).1.cur_L = 0) ∧
    ((Tank_Update cfg st now).1.gL.active = false →
      |(Tank_Update cfg st now).1.cur_L - st.cur_L| ≤ (cfg.ramp_step_pct : Int) ∧
      (st.cur_L ≤ (apply_neutral_gate_one cfg st.cur_L st.tgt_L st.gL now).1 →
        st.cur_L ≤ (Tank_Update cfg st now).1.cur_L ∧
        (Tank_Update cfg st now).1.cur_L ≤
          (apply_neutral_gate_one cfg st.cur_L st.tgt_L st.gL now).1) ∧
      ((apply_neutral_gate_one cfg st.cur_L st.tgt_L st.gL now).1 ≤ st.cur_L →
        (apply_neutral_gate_one cfg st.cur_L st.tgt_L st.gL now).1 ≤
          (Tank_Update cfg st now).1.cur_L ∧
        (Tank_Update cfg st now).1.cur_L ≤ st.cur_L)) ∧
    ((Tank_Update cfg st now).1.gR.active = true →
      (Tank_Update cfg st now).1.cur_R = 0) ∧
    ((Tank_Update cfg st now).1.gR.active = false →
      |(Tank_Update cfg st now).1.cur_R - st.cur_R| ≤ (cfg.ramp_step_pct : Int) ∧
      (st.cur_R ≤ (apply_neutral_gate_one cfg st.cur_R st.tgt_R st.gR now).1 →
        st.cur_R ≤ (Tank_Update cfg st now).1.cur_R ∧
        (Tank_Update cfg st now).1.cur_R ≤
          (apply_neutral_gate_one cfg st.cur_R st.tgt_R st.gR now).1) ∧
      ((apply_neutral_gate_one cfg st.cur_R st.tgt_R st.gR now).1 ≤ st.cur_R →
        (apply_neutral_gate_one cfg st.cur_R st.tgt_R st.gR now).1 ≤
          (Tank_Update cfg st now).1.cur_R ∧
        (Tank_Update cfg st now).1.cur_R ≤ st.cur_R)) := by
  have hgL : (Tank_Update cfg st now).1.gL =
      (apply_neutral_gate_one cfg st.cur_L st.tgt_L st.gL now).2 := rfl
  have hgR : (Tank_Update cfg st now).1.gR =
      (apply_neutral_gate_one cfg st.cur_R st.tgt_R st.gR now).2 := rfl
  have hcurL : (Tank_Update cfg st now).1.cur_L =
      (if (apply_neutral_gate_one cfg st.cur_L st.tgt_L st.gL now).2.active
       then 0
       else ramp_once st.cur_L
         (apply_neutral_gate_one cfg st.cur_L st.tgt_L st.gL now).1
         cfg.ramp_step_pct) := rfl
  have hcurR : (Tank_Update cfg st now).1.cur_R =
      (if (apply_neutral_gate_one cfg st.cur_R st.tgt_R st.gR now).2.active
       then 0
       else ramp_once st.cur_R
         (apply_neutral_gate_one cfg st.cur_R st.tgt_R st.gR now).1
         cfg.ramp_step_pct) := rfl
  have hbL : -128 ≤ (apply_neutral_gate_one cfg st.cur_L st.tgt_L st.gL now).1 ∧
      (apply_neutral_gate_one cfg st.cur_L st.tgt_L st.gL now).1 ≤ 127 := by
    rcases gate_out_cases cfg st.cur_L st.tgt_L st.gL now with h | h <;>
      rw [h] <;> exact ⟨by omega, by omega⟩
  have hbR : -128 ≤ (apply_neutral_gate_one cfg st.cur_R st.tgt_R st.gR now).1 ∧
      (apply_neutral_gate_one cfg st.cur_R st.tgt_R st.gR now).1 ≤ 127 := by
    rcases gate_out_cases cfg st.cur_R st.tgt_R st.gR now with h | h <;>
      rw [h] <;> exact ⟨by omega, by omega⟩
  have hrL := ramp_once_step_bound st.cur_L
    (apply_neutral_gate_one cfg st.cur_L st.tgt_L st.gL now).1
    cfg.ramp_step_pct hcl1 hcl2 hbL.1 hbL.2
  have hrR := ramp_once_step_bound st.cur_R
    (apply_neutral_gate_one cfg st.cur_R st.tgt_R st.gR now).1
    cfg.ramp_step_pct hcr1 hcr2 hbR.1 hbR.2
  refine ⟨fun ha => ?_, fun ha => ?_, fun ha => ?_, fun ha => ?_⟩
  · rw [hgL] at ha
    rw [hcurL, if_pos ha]
  · rw [hgL] at ha
    rw [hcurL, if_neg (by simp [ha])]
    exact hrL
  · rw [hgR] at ha
    rw [hcurR, if_pos ha]
  · rw [hgR] at ha
    rw [hcurR, if_neg (by simp [ha])]
    exact hrR

/-- Witness for C3: default tuning from the freshly initialized state with
targets `(100, 100)` at tick 0 — the gate stays inactive and the ramp bound
holds. -/
theorem C3_ramp_invariant_witness :
    (Tank_Update cfg_default (Tank_SetTarget Tank_Init 100 100) 0).1.gL.active
      = false ∧
    |(Tank_Update cfg_default (Tank_SetTarget Tank_Init 100 100) 0).1.cur_L -
      (Tank_SetTarget Tank_Init 100 100).cur_L| ≤
      (cfg_default.ramp_step_pct : Int) := by
  have h := C3_ramp_invariant cfg_default (Tank_SetTarget Tank_Init 100 100) 0
    (by decide) (by decide) (by decide) (by decide)
    (by decide) (by decide) (by decide) (by decide)
  have hfalse :
      (Tank_Update cfg_default (Tank_SetTarget Tank_Init 100 100) 0).1.gL.active
        = false := by decide
  exact ⟨hfalse, (h.2.1 hfalse).1⟩

/-! ### C4 -/

/-- Start of the C4 trace: targets set to full forward from the reset
state. -/
theorem c4_s0_eq : c4_s0 = ⟨100, 100, 0, 0, 0, 0, ⟨false, 0⟩, ⟨false, 0⟩⟩ := by
  decide

/-- C4 trace, tick 1: ramp reaches 4, EMA state reaches `4/5`. -/
theorem c4_s1_eq : c4_s1 = ⟨100, 100, 4, 4, 4/5, 4/5, ⟨false, 0⟩, ⟨false, 0⟩⟩ := by
  unfold c4_s1
  rw [c4_s0_eq]
  norm_num [Tank_Update, apply_neutral_gate_one, gate_reversal_check,
    qualifying_reversal, tickReached, usub32, u32, U32, wrap8, ramp_once,
    ema_step, cfg_default, decide_eq_true_eq]

/-- C4 trace, tick 2: ramp reaches 8, EMA state reaches `56/25`. -/
theorem c4_s2_eq : c4_s2 = ⟨100, 100, 8, 8, 56/25, 56/25, ⟨false, 0⟩, ⟨false, 0⟩⟩ := by
  unfold c4_s2
  rw [c4_s1_eq]
  norm_num [Tank_Update, apply_neutral_gate_one, gate_reversal_check,
    qualifying_reversal, tickReached, usub32, u32, U32, wrap8, ramp_once,
    ema_step, cfg_default, decide_eq_true_eq]

/-- C4 trace: the reversal command only replaces the targets. -/
theorem c4_s2b_eq : c4_s2b = ⟨-100, -100, 8, 8, 56/25, 56/25, ⟨false, 0⟩, ⟨false, 0⟩⟩ := by
  unfold c4_s2b
  rw [c4_s2_eq]
  norm_num [Tank_SetTarget, clamp_i8, wrap8]

/-- C4 trace, tick 3: the reversal (8 above threshold, target -100 below)
arms both gates until tick 560, forces `current` to 0, and the EMA state
decays to `224/125`. -/
theorem c4_s3_eq : c4_s3 =
    ⟨-100, -100, 0, 0, 224/125, 224/125, ⟨true, 560⟩, ⟨true, 560⟩⟩ := by
  unfold c4_s3
  rw [c4_s2b_eq]
  norm_num [Tank_Update, apply_neutral_gate_one, gate_reversal_check,
    qualifying_reversal, tickReached, usub32, u32, U32, wrap8, ramp_once,
    ema_step, cfg_default, decide_eq_true_eq]

/-- C4 trace, tick 4 (mid-dwell): the gate stays active and the EMA state
is still `896/625 > 1`. -/
theorem c4_s4_eq : c4_r4.1 =
    ⟨-100, -100, 0, 0, 896/625, 896/625, ⟨true, 560⟩, ⟨true, 560⟩⟩ := by
  show (Tank_Update cfg_default c4_s3 80).1 = _
  rw [c4_s3_eq]
  norm_num [Tank_Update, apply_neutral_gate_one, gate_reversal_check,
    qualifying_reversal, tickReached, usub32, u32, U32, wrap8, ramp_once,
    ema_step, cfg_default, decide_eq_true_eq]

/-- C4 trace, tick 4: the left actuator write is 30, not neutral. -/
theorem c4_out4_eq : c4_r4.2.1 = 30 := by
  show (Tank_Update cfg_default c4_s3 80).2.1 = 30
  rw [c4_s3_eq]
  have hf : ⌊(896/625 : ℚ)⌋ = 1 := by
    rw [Int.floor_eq_iff]
    norm_num
  norm_num [Tank_Update, apply_neutral_gate_one, gate_reversal_check,
    qualifying_reversal, tickReached, usub32, u32, U32, wrap8, ramp_once,
    ema_step, clampf, truncQ, map_logic_to_esc_window, esc_level,
    cfg_default, decide_eq_true_eq, hf]

/-- The truncated-toward-zero conversion is 0 exactly on `|q| < 1`. -/
theorem truncQ_eq_zero_iff (q : ℚ) : truncQ q = 0 ↔ |q| < 1 := by
  unfold truncQ
  split_ifs with h
  · rw [Int.ceil_eq_zero_iff, Set.mem_Ioc]
    constructor
    · intro hm
      rw [abs_lt]
      exact ⟨hm.1, lt_of_le_of_lt hm.2 one_pos⟩
    · intro ha
      exact ⟨(abs_lt.mp ha).1, le_of_lt h⟩
  · rw [Int.floor_eq_zero_iff, Set.mem_Ico]
    constructor
    · intro hm
      rw [abs_lt]
      refine ⟨lt_of_lt_of_le (by norm_num) hm.1, hm.2⟩
    · intro ha
      exact ⟨not_lt.mp h, (abs_lt.mp ha).2⟩

/-- With a positive window start, the window map vanishes only on input
0. -/
theorem map_window_eq_zero_iff (cfg : ConfigMotors) (x : Int)
    (hs : cfg.esc_start_pct ≤ cfg.esc_max_pct) (hm : cfg.esc_max_pct ≤ 127)
    (h1 : 1 ≤ cfg.esc_start_pct) :
    map_logic_to_esc_window cfg x = 0 ↔ x = 0 := by
  constructor
  · intro h
    by_contra hx
    have habs := map_abs_eq cfg x hs hm hx
    rw [h, abs_zero] at habs
    have hmem := esc_level_mem cfg |x| hs
    have h1' : (1 : Int) ≤ (cfg.esc_start_pct : Int) := by exact_mod_cast h1
    omega
  · intro h
    subst h
    rfl

/-- C4: while the reverse gate is active the actuator write is not
necessarily neutral.  Under the default tuning (smoothing factor `1/5`,
strictly between 0 and 1) the reachable trace
`Init; SetTarget(100,100); Update; Update; SetTarget(-100,-100); Update`
arms the gate, and the next mid-dwell `Update` still writes 30 — a nonzero
percentage at the `esc_start_pct` level — to the gated channel, because the
EMA state decays only geometrically; and in general the write is 0 exactly
when the compensated filtered value has magnitude below 1. -/
theorem C4_gated_output_not_neutral :
    c4_s3.gL.active = true ∧
    c4_r4.1.gL.active = true ∧
    c4_r4.2.1 = 30 ∧
    c4_r4.2.1 ≠ 0 ∧
    (cfg_default.esc_start_pct : Int) ≤ |c4_r4.2.1| ∧
    0 < cfg_default.smooth_alpha ∧ cfg_default.smooth_alpha < 1 ∧
    (∀ q : ℚ,
      map_logic_to_esc_window cfg_default (truncQ (clampf q (-100) 100)) = 0 ↔
      |clampf q (-100) 100| < 1) := by
  refine ⟨by rw [c4_s3_eq], by rw [c4_s4_eq], c4_out4_eq,
    by rw [c4_out4_eq]; norm_num,
    by rw [c4_out4_eq]; norm_num [cfg_default],
    by norm_num [cfg_default], by norm_num [cfg_default], fun q => ?_⟩
  rw [map_window_eq_zero_iff cfg_default _ (by norm_num [cfg_default])
    (by norm_num [cfg_default]) (by norm_num [cfg_default]),
    truncQ_eq_zero_iff]

/-! ### C8 -/

/-- Scenario A setup: targets at full forward from the reset state. -/
theorem c8_s0_eq : c8_s0 = ⟨100, 100, 0, 0, 0, 0, ⟨false, 0⟩, ⟨false, 0⟩⟩ := by
  decide

/-- C8 counterexample: running Scenario A under the repository default
configuration (`ramp_step = 4`, window `[30, 60]`, and the default
`smooth_alpha = 0.2`), one `Update` leaves `current = 4` on both channels
but writes 0 — not magnitude 31 — to both actuators, because the EMA state
`4/5` truncates to 0 before windowing. -/
theorem C8_scenarioA_counterexample :
    (c8_res cfg_default).1.cur_L = 4 ∧
    (c8_res cfg_default).1.cur_R = 4 ∧
    (c8_res cfg_default).2.1 = 0 ∧
    (c8_res cfg_default).2.2 = 0 ∧
    ¬ |(c8_res cfg_default).2.1| = 31 ∧
    ¬ |(c8_res cfg_default).2.2| = 31 := by
  have hf : ⌊(4/5 : ℚ)⌋ = 0 := by
    rw [Int.floor_eq_iff]
    norm_num
  unfold c8_res
  rw [c8_s0_eq]
  norm_num [Tank_Update, apply_neutral_gate_one, gate_reversal_check,
    qualifying_reversal, tickReached, usub32, u32, U32, wrap8, ramp_once,
    ema_step, clampf, truncQ, map_logic_to_esc_window, esc_level,
    cfg_default, decide_eq_true_eq, hf]

/-- C8 (amended): Scenario A with `ramp_step = 4`, window `[30, 60]`, unit
compensation scales and the smoothing stage bypassed (`smooth_alpha = 0`):
after `SetTarget(100,100)` and one `Update`, `current` is 4 on both
channels and the windowed output magnitude written to each actuator is
`30 + 30*4/100 = 31`. -/
theorem C8_scenarioA_amended :
    (c8_res cfg_bypass).1.cur_L = 4 ∧
    (c8_res cfg_bypass).1.cur_R = 4 ∧
    |(c8_res cfg_bypass).2.1| = 31 ∧
    |(c8_res cfg_bypass).2.2| = 31 := by
  have hf : ⌊(4 : ℚ)⌋ = 4 := by
    rw [Int.floor_eq_iff]
    norm_num
  have h : (c8_res cfg_bypass).1.cur_L = 4 ∧ (c8_res cfg_bypass).1.cur_R = 4 ∧
      (c8_res cfg_bypass).2.1 = 31 ∧ (c8_res cfg_bypass).2.2 = 31 := by
    unfold c8_res
    rw [c8_s0_eq]
    norm_num [Tank_Update, apply_neutral_gate_one, gate_reversal_check,
      qualifying_reversal, tickReached, usub32, u32, U32, wrap8, ramp_once,
      ema_step, clampf, truncQ, map_logic_to_esc_window, esc_level,
      cfg_bypass, decide_eq_true_eq, hf]
  refine ⟨h.1, h.2.1, ?_, ?_⟩
  · rw [h.2.2.1]
    decide
  · rw [h.2.2.2]
    decide
